import Mathlib

/-!
Verification of the job-lifecycle workflow of the repository
`Openai-API-fine-tuning` (single notebook `fine-tune-flow.ipynb`).

The notebook is a linear sequence of calls against an external fine-tuning
service.  The client-side steps (job creation with verbatim arguments,
status retrieval, event reversal, result-model extraction, chat inference,
file upload) are embedded from the notebook cells.  The service itself
(status transitions, the record invariant, event arrival order) is not part
of the repository; those parts are modelled from the specification and are
marked as such in their doc comments.

Definitions come first, theorems afterwards.
-/

namespace FineTuneFlow

/-- Job status as enumerated by the data model of the spec:
validating, queued, running, succeeded, failed, cancelled.
The wire name of the first status used by the service is
`"validating_files"` (the cell-6 output of the notebook shows
`Status: validating_files`). -/
inductive JobStatus where
  | validating
  | queued
  | running
  | succeeded
  | failed
  | cancelled
deriving DecidableEq, Repr

/-- Wire name of a status as printed by the service, matching the
observed notebook output (`validating_files` for the initial state). -/
def JobStatus.wireName : JobStatus → String
  | .validating => "validating_files"
  | .queued => "queued"
  | .running => "running"
  | .succeeded => "succeeded"
  | .failed => "failed"
  | .cancelled => "cancelled"

/-- Terminal statuses: succeeded, failed, cancelled. -/
def JobStatus.isTerminal : JobStatus → Bool
  | .succeeded => true
  | .failed => true
  | .cancelled => true
  | _ => false

/-- Position of a status along the lifecycle chain
validating → queued → running → terminal. -/
def JobStatus.rank : JobStatus → Nat
  | .validating => 0
  | .queued => 1
  | .running => 2
  | .succeeded => 3
  | .failed => 3
  | .cancelled => 3

/-- A fine-tuning Job Record as read back from the service: opaque id,
status, optional result model identifier (`fine_tuned_model`), optional
trained-token count (the fields the notebook reads in cells 6, 8 and 12). -/
structure JobRecord where
  id : String
  status : JobStatus
  fine_tuned_model : Option String
  trained_tokens : Option Nat
deriving DecidableEq, Repr

/-- The data-model invariant of the spec on Job Records: the result
reference (`fine_tuned_model`) is set if and only if status = succeeded. -/
def JobRecord.WellFormed (r : JobRecord) : Prop :=
  r.fine_tuned_model.isSome = true ↔ r.status = JobStatus.succeeded

instance (r : JobRecord) : Decidable r.WellFormed := by
  unfold JobRecord.WellFormed
  infer_instance

/-- Error taxonomy from section 7 of the spec. -/
inductive TrackerError where
  | notReadyError
  | timeoutError
  | validationError
  | transportError
deriving DecidableEq, Repr

/-- Errors of the notebook workflow itself: a missing file on disk
(the Python `FileNotFoundError` of `open`). -/
inductive NotebookError where
  | fileNotFound (path : String)
deriving DecidableEq, Repr

/-- Embedded from notebook cell-12:

```python
fine_tuned_model_id = response.fine_tuned_model
if fine_tuned_model_id is None:
    raise RuntimeError("Fine-tuned model ID not found. ...")
```

The inline `RuntimeError` for the missing result field is the
`NotReadyError` of the spec. -/
def extractResultModel (r : JobRecord) : Except TrackerError String :=
  match r.fine_tuned_model with
  | none => Except.error TrackerError.notReadyError
  | some m => Except.ok m

/-- Modelled from the spec: one service-side evolution step of a status.
The invariant of the spec says transitions are monotonic along
validating → queued → running → {succeeded | failed | cancelled}: a step
never moves backwards along the chain, and a terminal status never changes
again.  (The service is external; only its client calls are in the
notebook.) -/
def statusStep (a b : JobStatus) : Bool :=
  if a.isTerminal then a = b else a.rank ≤ b.rank

/-- Modelled from the spec: a service-side history of the Job Record for
one job, indexed by time; each step follows `statusStep` and the job id
never changes. -/
def ValidTrace (tr : Nat → JobRecord) : Prop :=
  ∀ n, statusStep (tr n).status (tr (n + 1)).status = true ∧ (tr (n + 1)).id = (tr n).id

/-- Modelled from the spec: `awaitTerminal` polls the job once per tick,
returning the first record whose status is terminal, and fails with
`TimeoutError` once the poll budget (timeout divided by poll interval) is
exhausted.  `start` is the current tick, the last argument the remaining
number of polls. -/
def awaitTerminal (tr : Nat → JobRecord) : Nat → Nat → Except TrackerError JobRecord
  | _, 0 => Except.error TrackerError.timeoutError
  | start, fuel + 1 =>
    if (tr start).status.isTerminal then Except.ok (tr start)
    else awaitTerminal tr (start + 1) fuel

/-- Modelled from the spec: the state of the fine-tuning service visible
to the client, a table of Job Records keyed by job id. -/
structure ServiceState where
  jobs : List (String × JobRecord)
deriving DecidableEq, Repr

/-- Look a job up in the service table by id. -/
def findJob : List (String × JobRecord) → String → Option JobRecord
  | [], _ => none
  | p :: rest, j => if p.1 = j then some p.2 else findJob rest j

/-- Modelled from the spec (and notebook cell-8, which only issues
`client.fine_tuning.jobs.retrieve(job_id)`): `poll` reads the current Job
Record for a job id and leaves the service state untouched. -/
def poll (s : ServiceState) (jobId : String) : Option JobRecord × ServiceState :=
  (findJob s.jobs jobId, s)

/-- Modelled from the spec: the effect of a cancellation request on one
record — a non-terminal job becomes cancelled, a terminal job is left
unchanged. -/
def cancelRecord (r : JobRecord) : JobRecord :=
  if r.status.isTerminal then r else { r with status := JobStatus.cancelled }

/-- Modelled from the spec (notebook cell-15 documents
`client.fine_tuning.jobs.cancel` without running it): `cancel` requests
cancellation of a job and returns the updated record. -/
def cancel (s : ServiceState) (jobId : String) : Option JobRecord × ServiceState :=
  match findJob s.jobs jobId with
  | none => (none, s)
  | some r =>
    (some (cancelRecord r),
      ServiceState.mk (s.jobs.map (fun p => if p.1 = jobId then (p.1, cancelRecord p.2) else p)))

/-- All records stored by the service are well-formed. -/
def StateWellFormed (s : ServiceState) : Prop :=
  ∀ p ∈ s.jobs, JobRecord.WellFormed p.2

/-- Optional hyperparameters accepted by the create-job endpoint, as
listed in notebook cell-5: batch size, learning-rate multiplier, number of
epochs.  The multiplier is kept as a rational. -/
structure Hyperparameters where
  batch_size : Option Nat
  learning_rate_multiplier : Option ℚ
  n_epochs : Option Nat
deriving DecidableEq, Repr

/-- Create-job request as assembled by notebook cell-6: training file id,
optional validation file id, base model, optional suffix and seed, plus
the unvalidated hyperparameter and integration configuration mentioned in
cell-5 (integrations kept as opaque configuration strings). -/
structure CreateJobRequest where
  training_file : String
  validation_file : Option String
  model : String
  suffix : Option String
  seed : Option Nat
  hyperparameters : Option Hyperparameters
  integrations : List String
deriving DecidableEq, Repr

/-- Embedded from notebook cell-6: the client forwards every supplied
argument verbatim into the create-job request and hands it to the service
(`svc` stands for the external create-job endpoint); whatever the service
answers — record or error — is returned to the caller unchanged. -/
def createJob (svc : CreateJobRequest → Except TrackerError JobRecord)
    (training_file : String) (validation_file : Option String) (model : String)
    (suffix : Option String) (seed : Option Nat)
    (hyperparameters : Option Hyperparameters) (integrations : List String) :
    Except TrackerError JobRecord :=
  svc (CreateJobRequest.mk training_file validation_file model suffix seed
    hyperparameters integrations)

/-- Modelled from the spec: on a successful create-job call the service
answers with a fresh Job Record in the initial status (wire name
`validating_files`) and no result model yet. -/
def serviceCreate (freshId : String) (_req : CreateJobRequest) : JobRecord :=
  JobRecord.mk freshId JobStatus.validating none none

/-- A service-emitted event of a fine-tuning job: arrival time and
human-readable message (notebook cell-10 prints `event.message`). -/
structure Event where
  created_at : Nat
  message : String
deriving DecidableEq, Repr

/-- Modelled from the spec: the service keeps an append-only event log in
arrival order and `listEvents` returns it newest-first (the `response.data`
of notebook cell-10). -/
def listEvents (log : List Event) : List Event :=
  log.reverse

/-- Embedded from notebook cell-10:

```python
events = response.data
events.reverse()
```

the caller-side reversal back to chronological order. -/
def eventsChronological (log : List Event) : List Event :=
  (listEvents log).reverse

/-- Notebook cell-2: `data_folder = "data"`. -/
def data_folder : String := "data"

/-- Notebook cell-2: `os.path.join(data_folder, "review_finetune_training.jsonl")`. -/
def training_file_name : String := data_folder ++ "/" ++ "review_finetune_training.jsonl"

/-- Notebook cell-2: `os.path.join(data_folder, "review_finetune_validation.jsonl")`. -/
def validation_file_name : String := data_folder ++ "/" ++ "review_finetune_validation.jsonl"

/-- Embedded from notebook cell-4: open the training file and upload it,
then unconditionally open the validation file and upload it; `fs` is the
local disk (path to contents), `filesCreate` the upload endpoint assigning
a file id to uploaded contents.  A missing file makes `open` fail. -/
def uploadStep (fs : String → Option String) (filesCreate : String → String) :
    Except NotebookError (String × String) :=
  match fs training_file_name with
  | none => Except.error (NotebookError.fileNotFound training_file_name)
  | some tdata =>
    match fs validation_file_name with
    | none => Except.error (NotebookError.fileNotFound validation_file_name)
    | some vdata => Except.ok (filesCreate tdata, filesCreate vdata)

/-- Embedded from notebook cell-6: the create-job request of the workflow
always carries `validation_file=validation_file_id`, with the fixed base
model `gpt-3.5-turbo` and `suffix="via-api"`. -/
def createJobStep (training_file_id validation_file_id : String) : CreateJobRequest :=
  CreateJobRequest.mk training_file_id (some validation_file_id) "gpt-3.5-turbo"
    (some "via-api") none none []

/-- A chat message as used in notebook cell-14. -/
structure ChatMessage where
  role : String
  content : String
deriving DecidableEq, Repr

/-- One choice of a chat-completion response. -/
structure ChatChoice where
  message : ChatMessage
deriving DecidableEq, Repr

/-- A chat-completion response: its list of choices. -/
structure ChatResponse where
  choices : List ChatChoice
deriving DecidableEq, Repr

/-- Embedded from notebook cell-14:

```python
print(response.choices[0].message.content)
```

indexing `choices[0]` without a guard; on an empty choices list the Python
indexing raises `IndexError`, modelled here as `none`. -/
def testStep (response : ChatResponse) : Option String :=
  match response.choices with
  | [] => none
  | c :: _ => some c.message.content

/-- An upload step outcome that is a failure. -/
def UploadFailed : Except NotebookError (String × String) → Prop
  | Except.error _ => True
  | Except.ok _ => False

/-- A possibly-absent Job Record is well-formed when present. -/
def OptWellFormed : Option JobRecord → Prop
  | none => True
  | some r => r.WellFormed

/-- The outcome of a bounded poll loop: a terminal record, or else
exactly a timeout. -/
def TerminalOrTimeout : Except TrackerError JobRecord → Prop
  | Except.ok r => r.status.isTerminal = true
  | Except.error e => e = TrackerError.timeoutError

/-- The outcome is a successfully returned terminal record. -/
def ReturnsTerminal : Except TrackerError JobRecord → Prop
  | Except.ok r => r.status.isTerminal = true
  | Except.error _ => False

/-! ## Theorems -/

/-- C1: on every well-formed Job Record (the data-model invariant of the
spec), `extractResultModel` returns the model identifier exactly when
status = succeeded and the result reference is present, and fails with
`NotReadyError` in every other case. -/
theorem extractResultModel_ok_iff (r : JobRecord) (h : r.WellFormed) :
    ((∃ m, r.fine_tuned_model = some m ∧ extractResultModel r = Except.ok m) ↔
      (r.status = JobStatus.succeeded ∧ r.fine_tuned_model.isSome = true)) ∧
    (¬ (r.status = JobStatus.succeeded ∧ r.fine_tuned_model.isSome = true) →
      extractResultModel r = Except.error TrackerError.notReadyError) := by
  unfold JobRecord.WellFormed at h
  constructor
  · constructor
    · rintro ⟨m, hm, _⟩
      have hs : r.fine_tuned_model.isSome = true := by simp [hm]
      exact ⟨h.mp hs, hs⟩
    · rintro ⟨_, hs⟩
      rcases Option.isSome_iff_exists.mp hs with ⟨m, hm⟩
      exact ⟨m, hm, by simp [extractResultModel, hm]⟩
  · intro hne
    match hm : r.fine_tuned_model with
    | none => simp [extractResultModel, hm]
    | some m =>
      exact absurd ⟨h.mp (by simp [hm]), by simp [hm]⟩ hne

/-- Witness for C1 at a concrete succeeded record. -/
theorem extractResultModel_ok_iff_witness :
    ((∃ m, (JobRecord.mk "ftjob-1" JobStatus.succeeded (some "ft:gpt") (some 5)).fine_tuned_model = some m ∧
        extractResultModel (JobRecord.mk "ftjob-1" JobStatus.succeeded (some "ft:gpt") (some 5)) = Except.ok m) ↔
      ((JobRecord.mk "ftjob-1" JobStatus.succeeded (some "ft:gpt") (some 5)).status = JobStatus.succeeded ∧
        (JobRecord.mk "ftjob-1" JobStatus.succeeded (some "ft:gpt") (some 5)).fine_tuned_model.isSome = true)) ∧
    (¬ ((JobRecord.mk "ftjob-1" JobStatus.succeeded (some "ft:gpt") (some 5)).status = JobStatus.succeeded ∧
        (JobRecord.mk "ftjob-1" JobStatus.succeeded (some "ft:gpt") (some 5)).fine_tuned_model.isSome = true) →
      extractResultModel (JobRecord.mk "ftjob-1" JobStatus.succeeded (some "ft:gpt") (some 5)) =
        Except.error TrackerError.notReadyError) :=
  extractResultModel_ok_iff (JobRecord.mk "ftjob-1" JobStatus.succeeded (some "ft:gpt") (some 5))
    (by decide)

/-- Along a `statusStep`, the rank never decreases. -/
theorem statusStep_rank_le {a b : JobStatus} (h : statusStep a b = true) :
    a.rank ≤ b.rank := by
  unfold statusStep at h
  by_cases ht : a.isTerminal = true
  · simp [ht] at h
    subst h
    exact Nat.le_refl _
  · simp [ht] at h
    exact h

/-- Along a `statusStep`, a terminal status stays fixed. -/
theorem statusStep_terminal_fixed {a b : JobStatus} (h : statusStep a b = true)
    (ht : a.isTerminal = true) : b = a := by
  unfold statusStep at h
  simp [ht] at h
  exact h.symm

/-- C2: across repeated polls of the same job (any two sample times
m ≤ n of a valid service history), the observed statuses never reverse:
the chain position is monotone, and once a terminal status is observed the
status never changes again; the job id also stays fixed. -/
theorem trace_no_reversal (tr : Nat → JobRecord) (h : ValidTrace tr)
    (m n : Nat) (hmn : m ≤ n) :
    (tr m).status.rank ≤ (tr n).status.rank ∧
    ((tr m).status.isTerminal = true → (tr n).status = (tr m).status) ∧
    (tr n).id = (tr m).id := by
  induction n with
  | zero =>
    have hm0 : m = 0 := Nat.le_zero.mp hmn
    subst hm0
    exact ⟨Nat.le_refl _, fun _ => rfl, rfl⟩
  | succ k ih =>
    rcases Nat.lt_or_ge m (k + 1) with hlt | hge
    · have hmk : m ≤ k := Nat.lt_succ_iff.mp hlt
      rcases ih hmk with ⟨hrank, hterm, hid⟩
      rcases h k with ⟨hstep, hids⟩
      refine ⟨Nat.le_trans hrank (statusStep_rank_le hstep), ?_, hids.trans hid⟩
      intro htm
      have hk : (tr k).status = (tr m).status := hterm htm
      have hfix : (tr (k + 1)).status = (tr k).status :=
        statusStep_terminal_fixed hstep (by rw [hk]; exact htm)
      rw [hfix, hk]
    · have hm : m = k + 1 := Nat.le_antisymm hmn hge
      subst hm
      exact ⟨Nat.le_refl _, fun _ => rfl, rfl⟩

/-- Witness for C2: a concrete valid history (validating at time 0,
succeeded from time 1 on), sampled at times 0 ≤ 2. -/
theorem trace_no_reversal_witness :
    ((fun n => if n = 0 then JobRecord.mk "ftjob-8X" JobStatus.validating none none
        else JobRecord.mk "ftjob-8X" JobStatus.succeeded (some "ft:gpt") (some 9)) 0).status.rank ≤
      ((fun n => if n = 0 then JobRecord.mk "ftjob-8X" JobStatus.validating none none
        else JobRecord.mk "ftjob-8X" JobStatus.succeeded (some "ft:gpt") (some 9)) 2).status.rank ∧
    (((fun n => if n = 0 then JobRecord.mk "ftjob-8X" JobStatus.validating none none
        else JobRecord.mk "ftjob-8X" JobStatus.succeeded (some "ft:gpt") (some 9)) 0).status.isTerminal = true →
      ((fun n => if n = 0 then JobRecord.mk "ftjob-8X" JobStatus.validating none none
        else JobRecord.mk "ftjob-8X" JobStatus.succeeded (some "ft:gpt") (some 9)) 2).status =
      ((fun n => if n = 0 then JobRecord.mk "ftjob-8X" JobStatus.validating none none
        else JobRecord.mk "ftjob-8X" JobStatus.succeeded (some "ft:gpt") (some 9)) 0).status) ∧
    ((fun n => if n = 0 then JobRecord.mk "ftjob-8X" JobStatus.validating none none
        else JobRecord.mk "ftjob-8X" JobStatus.succeeded (some "ft:gpt") (some 9)) 2).id =
      ((fun n => if n = 0 then JobRecord.mk "ftjob-8X" JobStatus.validating none none
        else JobRecord.mk "ftjob-8X" JobStatus.succeeded (some "ft:gpt") (some 9)) 0).id :=
  trace_no_reversal
    (fun n => if n = 0 then JobRecord.mk "ftjob-8X" JobStatus.validating none none
        else JobRecord.mk "ftjob-8X" JobStatus.succeeded (some "ft:gpt") (some 9))
    (by
      intro n
      cases n with
      | zero => exact ⟨rfl, rfl⟩
      | succ k => exact ⟨rfl, rfl⟩)
    0 2 (by decide)

/-- A record found in the service table is one of its stored records. -/
theorem findJob_mem {l : List (String × JobRecord)} {j : String} {r : JobRecord}
    (h : findJob l j = some r) : ∃ p, p ∈ l ∧ p.2 = r := by
  induction l with
  | nil => simp [findJob] at h
  | cons p rest ih =>
    by_cases hp : p.1 = j
    · simp [findJob, hp] at h
      exact ⟨p, List.mem_cons_self p rest, h⟩
    · simp [findJob, hp] at h
      rcases ih h with ⟨q, hq, hqr⟩
      exact ⟨q, List.mem_cons_of_mem p hq, hqr⟩

/-- Cancelling a well-formed record keeps it well-formed. -/
theorem cancelRecord_wellFormed {r : JobRecord} (h : r.WellFormed) :
    (cancelRecord r).WellFormed := by
  unfold cancelRecord
  by_cases ht : r.status.isTerminal = true
  · simpa [ht] using h
  · have hns : r.status ≠ JobStatus.succeeded := by
      intro he
      rw [he] at ht
      exact ht rfl
    have hnone : r.fine_tuned_model.isSome = false := by
      cases hx : r.fine_tuned_model.isSome
      · rfl
      · exact absurd (h.mp hx) hns
    simp only [ht, if_neg]
    unfold JobRecord.WellFormed
    simp [hnone]

/-- C3: every operation preserves the result-reference invariant on the
records it returns: a freshly created record is well-formed; `poll`
returns a well-formed record from a well-formed service state and leaves
the state unchanged; `cancel` returns a well-formed record and keeps the
whole service state well-formed.  (`extractResultModel` returns a model
id, not a record, so there is nothing for it to preserve.) -/
theorem operations_preserve_wellFormed (s : ServiceState) (jobId freshId : String)
    (req : CreateJobRequest) (hs : StateWellFormed s) :
    (serviceCreate freshId req).WellFormed ∧
    OptWellFormed (poll s jobId).1 ∧
    (poll s jobId).2 = s ∧
    OptWellFormed (cancel s jobId).1 ∧
    StateWellFormed (cancel s jobId).2 := by
  refine ⟨by simp [serviceCreate, JobRecord.WellFormed], ?_, rfl, ?_, ?_⟩
  · unfold poll OptWellFormed
    cases hf : findJob s.jobs jobId with
    | none => simp
    | some r =>
      simp only []
      rcases findJob_mem hf with ⟨p, hp, hpr⟩
      exact hpr ▸ hs p hp
  · unfold cancel OptWellFormed
    cases hf : findJob s.jobs jobId with
    | none => simp
    | some r =>
      simp only []
      rcases findJob_mem hf with ⟨p, hp, hpr⟩
      exact cancelRecord_wellFormed (hpr ▸ hs p hp)
  · unfold cancel
    cases hf : findJob s.jobs jobId with
    | none => simpa using hs
    | some r =>
      intro p hp
      simp only [List.mem_map] at hp
      rcases hp with ⟨q, hq, hqp⟩
      by_cases hqj : q.1 = jobId
      · rw [← hqp]
        simp only [hqj, if_pos]
        exact cancelRecord_wellFormed (hs q hq)
      · rw [← hqp]
        simp only [hqj, if_neg]
        exact hs q hq

/-- Witness for C3: a service state holding one running job. -/
theorem operations_preserve_wellFormed_witness :
    (serviceCreate "ftjob-new" (createJobStep "file-T" "file-V")).WellFormed ∧
    OptWellFormed (poll (ServiceState.mk [("ftjob-8X", JobRecord.mk "ftjob-8X" JobStatus.running none none)]) "ftjob-8X").1 ∧
    (poll (ServiceState.mk [("ftjob-8X", JobRecord.mk "ftjob-8X" JobStatus.running none none)]) "ftjob-8X").2 =
      ServiceState.mk [("ftjob-8X", JobRecord.mk "ftjob-8X" JobStatus.running none none)] ∧
    OptWellFormed (cancel (ServiceState.mk [("ftjob-8X", JobRecord.mk "ftjob-8X" JobStatus.running none none)]) "ftjob-8X").1 ∧
    StateWellFormed (cancel (ServiceState.mk [("ftjob-8X", JobRecord.mk "ftjob-8X" JobStatus.running none none)]) "ftjob-8X").2 :=
  operations_preserve_wellFormed
    (ServiceState.mk [("ftjob-8X", JobRecord.mk "ftjob-8X" JobStatus.running none none)])
    "ftjob-8X" "ftjob-new" (createJobStep "file-T" "file-V")
    (by
      intro p hp
      simp only [List.mem_singleton] at hp
      subst hp
      decide)

/-- C4: for every trace, start tick and poll budget, `awaitTerminal`
either returns a record whose status is terminal or fails with exactly
`TimeoutError`; it never returns a non-terminal record. -/
theorem awaitTerminal_never_nonterminal (tr : Nat → JobRecord) (start fuel : Nat) :
    TerminalOrTimeout (awaitTerminal tr start fuel) := by
  induction fuel generalizing start with
  | zero => simp [awaitTerminal, TerminalOrTimeout]
  | succ k ih =>
    unfold awaitTerminal
    by_cases ht : (tr start).status.isTerminal = true
    · simp [ht, TerminalOrTimeout]
    · simpa [ht] using ih (start + 1)

/-- If the job is terminal at some tick within the poll budget, the poll
loop returns a terminal record. -/
theorem awaitTerminal_reaches (tr : Nat → JobRecord) :
    ∀ fuel start k, k < fuel → (tr (start + k)).status.isTerminal = true →
      ReturnsTerminal (awaitTerminal tr start fuel) := by
  intro fuel
  induction fuel with
  | zero =>
    intro start k hk
    exact absurd hk (Nat.not_lt_zero k)
  | succ f ih =>
    intro start k hk hterm
    unfold awaitTerminal
    by_cases ht : (tr start).status.isTerminal = true
    · simp [ht, ReturnsTerminal]
    · cases k with
      | zero =>
        rw [Nat.add_zero] at hterm
        exact absurd hterm ht
      | succ j =>
        have hj : j < f := Nat.lt_of_succ_lt_succ hk
        have hterm2 : (tr (start + 1 + j)).status.isTerminal = true := by
          have : start + 1 + j = start + (j + 1) := by omega
          rw [this]
          exact hterm
        simpa [ht] using ih (start + 1) j hj hterm2

/-- C5: `poll` is an idempotent, side-effect-free read: it returns the
service state unchanged, and a second immediate call (with no intervening
service-side change) returns the identical Job Record and again the same
state. -/
theorem poll_idempotent (s : ServiceState) (jobId : String) :
    (poll s jobId).2 = s ∧
    (poll ((poll s jobId).2) jobId).1 = (poll s jobId).1 ∧
    (poll ((poll s jobId).2) jobId).2 = s :=
  ⟨rfl, rfl, rfl⟩

/-- C6: on a chronologically stored event log, `listEvents` hands back a
finite sequence ordered newest-first, and the caller-side reversal of
notebook cell-10 recovers exactly the chronological arrival order. -/
theorem listEvents_newest_first (log : List Event)
    (hchron : log.Pairwise (fun a b => a.created_at ≤ b.created_at)) :
    (listEvents log).Pairwise (fun a b => b.created_at ≤ a.created_at) ∧
    eventsChronological log = log := by
  constructor
  · unfold listEvents
    exact List.pairwise_reverse.mpr hchron
  · unfold eventsChronological listEvents
    exact log.reverse_reverse

/-- Witness for C6 on a concrete two-event log. -/
theorem listEvents_newest_first_witness :
    (listEvents [Event.mk 1 "Step 1", Event.mk 2 "Step 2"]).Pairwise
      (fun a b => b.created_at ≤ a.created_at) ∧
    eventsChronological [Event.mk 1 "Step 1", Event.mk 2 "Step 2"] =
      [Event.mk 1 "Step 1", Event.mk 2 "Step 2"] :=
  listEvents_newest_first [Event.mk 1 "Step 1", Event.mk 2 "Step 2"] (by decide)

/-- C7: a job freshly created from a request with no validation file
starts in the status with wire name `validating_files`, and once the
service history reaches a terminal status at some poll N, polling up to
N + 1 times returns a terminal record. -/
theorem submit_validating_then_terminal (freshId : String) (req : CreateJobRequest)
    (_hnoval : req.validation_file = none)
    (tr : Nat → JobRecord) (h0 : tr 0 = serviceCreate freshId req)
    (N : Nat) (hterm : (tr N).status.isTerminal = true) :
    (tr 0).status.wireName = "validating_files" ∧
    ReturnsTerminal (awaitTerminal tr 0 (N + 1)) := by
  constructor
  · rw [h0]
    rfl
  · refine awaitTerminal_reaches tr (N + 1) 0 N (Nat.lt_succ_self N) ?_
    rw [Nat.zero_add]
    exact hterm

/-- Witness for C7: the submit scenario with training file `file-A`, no
validation file, and a history that succeeds at poll 1. -/
theorem submit_validating_then_terminal_witness :
    ((fun n => if n = 0
        then serviceCreate "ftjob-8X" (CreateJobRequest.mk "file-A" none "gpt-3.5-turbo" none none none [])
        else JobRecord.mk "ftjob-8X" JobStatus.succeeded (some "ft:gpt") (some 9)) 0).status.wireName =
      "validating_files" ∧
    ReturnsTerminal (awaitTerminal
      (fun n => if n = 0
        then serviceCreate "ftjob-8X" (CreateJobRequest.mk "file-A" none "gpt-3.5-turbo" none none none [])
        else JobRecord.mk "ftjob-8X" JobStatus.succeeded (some "ft:gpt") (some 9)) 0 (1 + 1)) :=
  submit_validating_then_terminal "ftjob-8X"
    (CreateJobRequest.mk "file-A" none "gpt-3.5-turbo" none none none [])
    rfl
    (fun n => if n = 0
        then serviceCreate "ftjob-8X" (CreateJobRequest.mk "file-A" none "gpt-3.5-turbo" none none none [])
        else JobRecord.mk "ftjob-8X" JobStatus.succeeded (some "ft:gpt") (some 9))
    rfl 1 rfl

/-- C8: the client performs no validation of its own: `createJob` hands
the service a request built verbatim from every supplied argument, and
when the service answers with an error (such as its `ValidationError` for
a missing or malformed data reference) that error is surfaced to the
caller unchanged. -/
theorem createJob_passthrough (svc : CreateJobRequest → Except TrackerError JobRecord)
    (training_file : String) (validation_file : Option String) (model : String)
    (suffix : Option String) (seed : Option Nat)
    (hyperparameters : Option Hyperparameters) (integrations : List String)
    (e : TrackerError)
    (hsvc : svc (CreateJobRequest.mk training_file validation_file model suffix seed
      hyperparameters integrations) = Except.error e) :
    createJob svc training_file validation_file model suffix seed hyperparameters integrations =
      svc (CreateJobRequest.mk training_file validation_file model suffix seed
        hyperparameters integrations) ∧
    createJob svc training_file validation_file model suffix seed hyperparameters integrations =
      Except.error e :=
  ⟨rfl, hsvc⟩

/-- Witness for C8: a service that rejects every request with
`ValidationError`; the client surfaces exactly that error. -/
theorem createJob_passthrough_witness :
    createJob (fun _ => Except.error TrackerError.validationError)
        "file-T" (some "file-V") "gpt-3.5-turbo" (some "via-api") none none [] =
      (fun _ => (Except.error TrackerError.validationError : Except TrackerError JobRecord))
        (CreateJobRequest.mk "file-T" (some "file-V") "gpt-3.5-turbo" (some "via-api") none none []) ∧
    createJob (fun _ => Except.error TrackerError.validationError)
        "file-T" (some "file-V") "gpt-3.5-turbo" (some "via-api") none none [] =
      Except.error TrackerError.validationError :=
  createJob_passthrough (fun _ => Except.error TrackerError.validationError)
    "file-T" (some "file-V") "gpt-3.5-turbo" (some "via-api") none none []
    TrackerError.validationError rfl

/-- C9: the workflow treats the validation file as mandatory: if the
validation file is absent on disk the upload step of cell-4 fails (it
opens the file unconditionally), and the create-job request of cell-6
always carries a present `validation_file` id. -/
theorem validation_file_mandatory (fs : String → Option String)
    (filesCreate : String → String) (tid vid : String)
    (hmissing : fs validation_file_name = none) :
    UploadFailed (uploadStep fs filesCreate) ∧
    (createJobStep tid vid).validation_file = some vid := by
  constructor
  · unfold uploadStep
    cases ht : fs training_file_name with
    | none => simp [UploadFailed]
    | some t => simp [hmissing, UploadFailed]
  · rfl

/-- Witness for C9: an empty disk. -/
theorem validation_file_mandatory_witness :
    UploadFailed (uploadStep (fun _ => none) (fun s => s)) ∧
    (createJobStep "file-T" "file-V").validation_file = some "file-V" :=
  validation_file_mandatory (fun _ => none) (fun s => s) "file-T" "file-V" rfl

/-- C10: the inference step of cell-14 reads `choices[0]` with no guard:
it yields no content exactly when the choices list is empty (the Python
`IndexError` case), and otherwise returns the content of the first
choice. -/
theorem testStep_unguarded_first_choice (resp : ChatResponse) :
    (testStep resp = none ↔ resp.choices = []) ∧
    testStep resp = resp.choices.head?.map (fun c => c.message.content) := by
  rcases resp with ⟨choices⟩
  cases choices with
  | nil => exact ⟨by simp [testStep], by simp [testStep]⟩
  | cons c rest => exact ⟨by simp [testStep], by simp [testStep]⟩

end FineTuneFlow
